import Mathlib

/-!
Verification development for the starship-bridge MCP sandbox server
(`mcp_server/core/security.py`, `mcp_server/tools/file_system.py`,
`mcp_server/tools/git.py`, `mcp_server/tools/workspace.py`).

The embedding models POSIX path strings directly (the Python code works on
`str(Path)` values), the filesystem as an explicit record of existing
directories and files, Python exceptions as an error sum type returned in
`Except`, and the external `git` subprocess as an oracle function supplied
as an argument.  Per `mcp_server/main.py` the configured sandbox root is
validated to be an absolute path before any tool runs, so path strings fed
to `resolveAbs` are absolute.
-/

/-- Python `str.startswith`: `pyStartswith s pre` is true when `pre` is an
initial run of `s`.  Implemented on the character lists. -/
def isStrPre : List Char → List Char → Bool
  | [], _ => true
  | _ :: _, [] => false
  | a :: as, b :: bs => a = b && isStrPre as bs

def pyStartswith (s pre : String) : Bool :=
  isStrPre pre.data s.data

/-- Python `pat in s` substring test. -/
def listContainsSub (pat : List Char) : List Char → Bool
  | [] => isStrPre pat []
  | c :: t => isStrPre pat (c :: t) || listContainsSub pat t

def containsSub (s pat : String) : Bool :=
  listContainsSub pat.data s.data

/-- Python `str.split('/')`: always returns at least one (possibly empty)
component; empty components mark consecutive, leading or trailing slashes. -/
def splitSlash : List Char → List (List Char)
  | [] => [[]]
  | c :: rest =>
    match splitSlash rest with
    | [] => [[c]]
    | h :: t => if c = '/' then [] :: h :: t else (c :: h) :: t

/-- `'/'.join(comps)` on character lists. -/
def joinSlash : List (List Char) → List Char
  | [] => []
  | [a] => a
  | a :: b :: rest => a ++ '/' :: joinSlash (b :: rest)

/-- CPython `posixpath.normpath` component processing (`for comp in comps`). -/
def normpathComps (initialSlashes : Bool) : List (List Char) → List (List Char) → List (List Char)
  | newComps, [] => newComps
  | newComps, comp :: rest =>
    if comp = [] ∨ comp = ['.'] then
      normpathComps initialSlashes newComps rest
    else if comp ≠ ['.', '.'] ∨ (¬ initialSlashes ∧ newComps = [])
        ∨ (newComps ≠ [] ∧ newComps.getLast? = some ['.', '.']) then
      normpathComps initialSlashes (newComps ++ [comp]) rest
    else if newComps ≠ [] then
      normpathComps initialSlashes newComps.dropLast rest
    else
      normpathComps initialSlashes newComps rest

/-- `os.path.normpath` for POSIX, as in CPython `posixpath.normpath`:
collapse `.` and empty components, resolve `..` syntactically, keep leading
`..` of a relative path, preserve one or two leading slashes. -/
def normpath (path : String) : String :=
  if path = "" then "."
  else
    let initialSlashes : Bool := pyStartswith path "/"
    let slashCount : Nat :=
      if pyStartswith path "//" ∧ ¬ pyStartswith path "///" then 2
      else if initialSlashes then 1 else 0
    let comps := splitSlash path.data
    let newComps := normpathComps initialSlashes [] comps
    let joined := List.replicate slashCount '/' ++ joinSlash newComps
    if joined = [] then "." else String.mk joined

/-- `pathlib.Path.resolve()` on an absolute path in a symlink-free
filesystem: drop empty and `.` components, a `..` component removes the
previous component (at the root it is dropped). -/
def resolveComps : List (List Char) → List (List Char) → List (List Char)
  | acc, [] => acc
  | acc, c :: rest =>
    if c = [] ∨ c = ['.'] then resolveComps acc rest
    else if c = ['.', '.'] then resolveComps acc.dropLast rest
    else resolveComps (acc ++ [c]) rest

def resolveAbs (p : String) : String :=
  String.mk ('/' :: joinSlash (resolveComps [] (splitSlash p.data)))

/-- `pathlib` `base / rel` then `str`: an absolute right operand replaces the
left one, otherwise the components are concatenated. -/
def pyJoin (base rel : String) : String :=
  if pyStartswith rel "/" then rel else base ++ "/" ++ rel

/-- `str(Path(p).parent)` for a canonical absolute `p`: drop the last
component. -/
def dirname (p : String) : String :=
  String.mk ('/' :: joinSlash ((resolveComps [] (splitSlash p.data)).dropLast))

/-- Python `str.strip()` whitespace set. -/
def pyIsSpace (c : Char) : Bool :=
  c = ' ' ∨ c = '\t' ∨ c = '\n' ∨ c = '\r' ∨ c = '\x0b' ∨ c = '\x0c'

def pyStrip (s : String) : String :=
  String.mk (((s.data.dropWhile pyIsSpace).reverse.dropWhile pyIsSpace).reverse)

/-- Universal-newline translation performed by `Path.read_text` (text mode
with `newline=None`): `\r\n` and lone `\r` both decode to `\n`. -/
def universalNewlines : List Char → List Char
  | [] => []
  | '\r' :: '\n' :: rest => '\n' :: universalNewlines rest
  | '\r' :: rest => '\n' :: universalNewlines rest
  | c :: rest => c :: universalNewlines rest

/-- The Python exceptions raised or caught by the modelled code.
`sandboxViolation` is `SandboxViolationError` from
`mcp_server/core/security.py`. -/
inductive PyError where
  | valueError (msg : String)
  | sandboxViolation (msg : String)
  | fileNotFound (msg : String)
  | notADirectory (msg : String)
  | fileExists (msg : String)
  | osError (msg : String)
deriving DecidableEq

/-- `str(err)`: the message carried by the exception. -/
def pyErrMsg : PyError → String
  | .valueError m => m
  | .sandboxViolation m => m
  | .fileNotFound m => m
  | .notADirectory m => m
  | .fileExists m => m
  | .osError m => m

/-- The one configuration field the modelled code reads
(`mcp_server/config.py`); `mcp_server/main.py` refuses to start unless it
is a non-empty absolute path. -/
structure Settings where
  DIRECTORY_SANDBOX : String
deriving DecidableEq

/-- The filesystem: the set of existing directories and the map from file
path to stored byte content, all keyed by canonical absolute path strings.
No symlinks (`resolveAbs` is `Path.resolve` for exactly this case). -/
structure FS where
  dirs : List String
  files : List (String × String)
deriving DecidableEq

def FS.lookupFile (fs : FS) (p : String) : Option String :=
  (fs.files.find? (fun kv => kv.1 = p)).map (·.2)

def FS.isDir (fs : FS) (p : String) : Bool :=
  fs.dirs.contains p

def FS.isFile (fs : FS) (p : String) : Bool :=
  (fs.lookupFile p).isSome && ¬ fs.dirs.contains p

def FS.existsPath (fs : FS) (p : String) : Bool :=
  fs.isDir p || fs.isFile p

/-- All ancestors of a canonical absolute path, the path itself included. -/
def ancestorPaths (p : String) : List String :=
  let comps := resolveComps [] (splitSlash p.data)
  (List.range (comps.length + 1)).map
    (fun n => String.mk ('/' :: joinSlash (comps.take n)))

/-- `Path.mkdir(parents=True, exist_ok=True)`: the directory and every
missing ancestor come into existence. -/
def FS.mkdirAll (fs : FS) (p : String) : FS :=
  { fs with dirs := p :: ancestorPaths p ++ fs.dirs }

/-- `Path.write_text(content, encoding='utf-8')`: overwrite unconditionally.
On this platform `os.linesep = "\n"`, so text-mode newline translation on
write is the identity and the string is stored as-is. -/
def FS.writeText (fs : FS) (p content : String) : FS :=
  { fs with files := (p, content) :: fs.files.filter (fun kv => kv.1 ≠ p) }

/-- `mcp_server/core/security.py`, `resolve_and_validate_path`.  Checks the
arguments, syntactically normalizes `relative_path` and rejects a surviving
`..`, canonicalizes `sandbox_root`, `workspace_root` and `target_path`,
applies the two `str(...).startswith(...)` containment checks, optionally
creates the parent directories of the target (re-checking the parent), and
optionally requires the target to exist.  Returns the validated path and
the (possibly grown) filesystem; raised exceptions become `.error`. -/
def resolve_and_validate_path (config : Settings)
    (workspace_id relative_path : String)
    (ensure_parent_exists check_existence : Bool) (fs : FS) :
    Except PyError (String × FS) :=
  if workspace_id = "" then
    .error (.valueError "Workspace ID cannot be empty.")
  else if relative_path = "" then
    .error (.valueError "Relative path cannot be empty.")
  else if config.DIRECTORY_SANDBOX = "" then
    .error (.valueError "DIRECTORY_SANDBOX is not configured.")
  else
    let normalized_relative_path := normpath relative_path
    if pyStartswith normalized_relative_path ".."
        || containsSub normalized_relative_path "/../"
        || containsSub normalized_relative_path "\\..\\" then
      .error (.sandboxViolation
        ("Invalid relative path contains .. : " ++ relative_path))
    else
      let sandbox_root := resolveAbs config.DIRECTORY_SANDBOX
      let workspace_root := resolveAbs (pyJoin sandbox_root workspace_id)
      let target_path := resolveAbs (pyJoin workspace_root normalized_relative_path)
      if ¬ pyStartswith workspace_root sandbox_root then
        .error (.sandboxViolation
          ("Workspace directory " ++ workspace_id ++ " is outside the sandbox "
            ++ sandbox_root ++ "."))
      else if ¬ pyStartswith target_path workspace_root then
        .error (.sandboxViolation
          ("Path traversal attempt detected. Resolved path " ++ target_path
            ++ " is outside the workspace " ++ workspace_root ++ "."))
      else
        let fs1 := if ensure_parent_exists then fs.mkdirAll (dirname target_path) else fs
        if ensure_parent_exists && ¬ pyStartswith (dirname target_path) workspace_root then
          .error (.sandboxViolation
            "Parent directory creation resulted in path outside workspace.")
        else if check_existence && ¬ fs1.existsPath target_path then
          .error (.fileNotFound ("Required path does not exist: " ++ target_path))
        else
          .ok (target_path, fs1)

/-! ## File operations (`mcp_server/tools/file_system.py`) -/

/-- `write_file`: resolve with `ensure_parent_exists=True`, then
`write_text`.  Security and value errors are re-raised. -/
def write_file (config : Settings) (workspace_id relative_path content : String)
    (fs : FS) : Except PyError (Bool × FS) :=
  match resolve_and_validate_path config workspace_id relative_path true false fs with
  | .error e => .error e
  | .ok (absolute_path, fs1) => .ok (true, fs1.writeText absolute_path content)

/-- `read_file`: resolve with `check_existence=True`, require a regular
file, return its text content (text mode applies universal-newline
decoding).  Performs no mutation. -/
def read_file (config : Settings) (workspace_id relative_path : String)
    (fs : FS) : Except PyError String :=
  match resolve_and_validate_path config workspace_id relative_path false true fs with
  | .error e => .error e
  | .ok (absolute_path, _) =>
    if ¬ fs.isFile absolute_path then
      .error (.fileNotFound ("Path exists but is not a file: " ++ absolute_path))
    else
      match fs.lookupFile absolute_path with
      | some content => .ok (String.mk (universalNewlines content.data))
      | none => .error (.fileNotFound absolute_path)

/-- Immediate entry names of a directory: the last component of every
existing path whose parent is `p`. -/
def FS.childNames (fs : FS) (p : String) : List String :=
  ((fs.dirs ++ fs.files.map Prod.fst).filter
      (fun q => dirname q = p ∧ q ≠ p)).map
    (fun q => String.mk ((resolveComps [] (splitSlash q.data)).getLastD []))

/-- `list_directory`: resolve with `check_existence=True`, require a
directory, return the entry names.  Performs no mutation. -/
def list_directory (config : Settings) (workspace_id relative_path : String)
    (fs : FS) : Except PyError (List String) :=
  match resolve_and_validate_path config workspace_id relative_path false true fs with
  | .error e => .error e
  | .ok (absolute_path, _) =>
    if ¬ fs.isDir absolute_path then
      .error (.notADirectory ("Path exists but is not a directory: " ++ absolute_path))
    else
      .ok (fs.childNames absolute_path)

/-- `create_directory`: resolve with `ensure_parent_exists=False`, then
`mkdir(parents=True, exist_ok=True)`. -/
def create_directory (config : Settings) (workspace_id relative_path : String)
    (fs : FS) : Except PyError (Bool × FS) :=
  match resolve_and_validate_path config workspace_id relative_path false false fs with
  | .error e => .error e
  | .ok (absolute_path, fs1) => .ok (true, fs1.mkdirAll absolute_path)

/-! ## VCS operations (`mcp_server/tools/git.py`) -/

/-- Captured outcome of one external process run
(`subprocess.run(..., capture_output=True, text=True, check=False)`). -/
structure ProcResult where
  stdout : String
  stderr : String
  returncode : Int
deriving DecidableEq

/-- The dictionary `_run_git_command` returns.  An absent key is `none`:
the exception branch fills only `success`, `stderr` and `returncode`. -/
structure GitDict where
  command : Option String
  stdout : Option String
  stderr : Option String
  returncode : Option Int
  success : Bool
deriving DecidableEq

/-- `_run_git_command`: validate the working directory with
`check_existence=True` and a directory check, run `git` there via the
subprocess oracle `runner`, and package the outcome; every caught
exception becomes the partial `success=False` dictionary.  The function
is total: no exception escapes it. -/
def run_git_command (config : Settings) (workspace_id relative_dir : String)
    (command_args : List String) (fs : FS)
    (runner : List String → String → ProcResult) : GitDict :=
  match resolve_and_validate_path config workspace_id relative_dir false true fs with
  | .error e =>
    { command := none, stdout := none, stderr := some (pyErrMsg e),
      returncode := some (-1), success := false }
  | .ok (working_dir_path, _) =>
    if ¬ fs.isDir working_dir_path then
      { command := none, stdout := none,
        stderr := some ("Git working directory is not valid: " ++ working_dir_path),
        returncode := some (-1), success := false }
    else
      let full_command := "git" :: command_args
      let result := runner full_command working_dir_path
      { command := some (String.intercalate " " full_command),
        stdout := some (pyStrip result.stdout),
        stderr := some (pyStrip result.stderr),
        returncode := some result.returncode,
        success := result.returncode = 0 }

def git_clone (config : Settings) (workspace_id repo_url directory : String)
    (fs : FS) (runner : List String → String → ProcResult) : GitDict :=
  run_git_command config workspace_id directory ["clone", repo_url, "."] fs runner

def git_commit (config : Settings) (workspace_id message : String)
    (add_all : Bool) (directory : String) (fs : FS)
    (runner : List String → String → ProcResult) : GitDict :=
  if add_all then
    let add_result := run_git_command config workspace_id directory ["add", "."] fs runner
    if ¬ add_result.success then add_result
    else run_git_command config workspace_id directory ["commit", "-m", message] fs runner
  else
    run_git_command config workspace_id directory ["commit", "-m", message] fs runner

def git_diff_staged (config : Settings) (workspace_id directory : String)
    (fs : FS) (runner : List String → String → ProcResult) : GitDict :=
  run_git_command config workspace_id directory ["diff", "--staged"] fs runner

def git_push (config : Settings) (workspace_id directory remote branch : String)
    (fs : FS) (runner : List String → String → ProcResult) : GitDict :=
  run_git_command config workspace_id directory ["push", remote, branch] fs runner

/-! ## Workspace manager (`mcp_server/tools/workspace.py`) -/

/-- Python `\w` (ASCII view) or `-`: the characters `re.sub(r'[^\w-]+','_',s)`
keeps. -/
def isWordOrHyphen (c : Char) : Bool :=
  c.isAlphanum ∨ c = '_' ∨ c = '-'

/-- `re.sub(r'[^\w-]+', '_', s)` one character at a time: the flag records
whether the previous character was part of a non-word run, so each maximal
run becomes a single underscore. -/
def subNonWordAux : Bool → List Char → List Char
  | _, [] => []
  | inRun, c :: rest =>
    if isWordOrHyphen c then c :: subNonWordAux false rest
    else if inRun then subNonWordAux true rest
    else '_' :: subNonWordAux true rest

def subNonWord (l : List Char) : List Char :=
  subNonWordAux false l

/-- The sanitized project name: strip, replace runs of non-word characters,
truncate to 50 characters. -/
def sanitizeName (project_name : String) : String :=
  String.mk ((subNonWord (pyStrip project_name).data).take 50)

/-- The generated workspace identifier, with the random
`uuid.uuid4().hex[:8]` suffix supplied as the oracle `suffix`. -/
def makeWorkspaceId (project_name suffix : String) : String :=
  "ws_" ++ sanitizeName project_name ++ "_" ++ suffix

/-- The return dictionary of `create_workspace`: always exactly these four
keys. -/
structure WsResult where
  success : Bool
  workspace_id : Option String
  absolute_path : Option String
  error : Option String
deriving DecidableEq

/-- `create_workspace`: sanitize the name, generate the id, validate its
root via the resolver, `mkdir(parents=True, exist_ok=False)`.  `suffix` is
the random-uuid oracle and `osFault`, when set, makes the `mkdir` raise
`OSError` with that message.  Every failure branch of the Python `try` is a
returned dictionary; the function never raises. -/
def create_workspace (config : Settings) (project_name suffix : String)
    (osFault : Option String) (fs : FS) : WsResult × FS :=
  if project_name = "" then
    ({ success := false, workspace_id := none, absolute_path := none,
       error := some "A valid, non-empty project_name string is required." }, fs)
  else
    match resolve_and_validate_path config (makeWorkspaceId project_name suffix)
        "." false false fs with
    | .error e =>
      ({ success := false, workspace_id := none, absolute_path := none,
         error := some (pyErrMsg e) }, fs)
    | .ok (workspace_path, fs1) =>
      if fs1.existsPath workspace_path then
        ({ success := false,
           workspace_id := some (makeWorkspaceId project_name suffix),
           absolute_path := none,
           error := some ("Workspace creation conflict. Directory "
             ++ makeWorkspaceId project_name suffix ++ " already exists.") }, fs1)
      else
        match osFault with
        | some m =>
          ({ success := false,
             workspace_id := some (makeWorkspaceId project_name suffix),
             absolute_path := none,
             error := some ("OS error creating workspace directory "
               ++ makeWorkspaceId project_name suffix ++ ": " ++ m) }, fs1)
        | none =>
          ({ success := true,
             workspace_id := some (makeWorkspaceId project_name suffix),
             absolute_path := some workspace_path, error := none },
           fs1.mkdirAll workspace_path)

/-! ## Shared notions and helper lemmas for the theorems -/

/-- True path containment: `p` is the directory `root` itself or lies
strictly below it (segment-aware, unlike the `str.startswith` the code
uses). -/
def isDescendantPath (p root : String) : Bool :=
  p = root || pyStartswith p (root ++ "/")

/-- A `write_file` immediately followed by `read_file` of the same path in
the resulting filesystem: the round-trip of the spec's testable property. -/
def writeThenRead (config : Settings) (workspace_id relative_path content : String)
    (fs : FS) : Except PyError String :=
  match write_file config workspace_id relative_path content fs with
  | .error e => .error e
  | .ok (_, fs2) => read_file config workspace_id relative_path fs2

def exceptIsOk : Except PyError (Bool × FS) → Bool
  | .ok _ => true
  | .error _ => false

/-- The filesystem after a write attempt ( unchanged on error). -/
def fsAfterWrite (r : Except PyError (Bool × FS)) (fallback : FS) : FS :=
  match r with
  | .ok (_, fs2) => fs2
  | .error _ => fallback

/-- The canonical target the resolver computes from its three path
inputs. -/
def targetOf (config : Settings) (workspace_id relative_path : String) : String :=
  resolveAbs (pyJoin
    (resolveAbs (pyJoin (resolveAbs config.DIRECTORY_SANDBOX) workspace_id))
    (normpath relative_path))

/-- A configuration with sandbox root `/sbx` and two starting filesystems,
used to instantiate the general theorems. -/
def cfgSbx : Settings := ⟨"/sbx"⟩

def fsBase : FS := ⟨["/", "/sbx"], []⟩

def fsWs1 : FS := ⟨["/", "/sbx", "/sbx/ws1"], []⟩

/-- With `ensure_parent_exists=False` the resolver mutates nothing and its
successful output is determined by the three path inputs alone. -/
theorem resolve_noensure_ok (config : Settings) (workspace_id relative_path : String)
    (check_existence : Bool) (fs : FS) (p : String) (fs1 : FS)
    (h : resolve_and_validate_path config workspace_id relative_path false
          check_existence fs = .ok (p, fs1)) :
    fs1 = fs ∧ p = targetOf config workspace_id relative_path := by
  unfold resolve_and_validate_path at h
  simp only [Bool.false_and, Bool.false_eq_true, if_false, ite_false] at h
  split at h
  · cases h
  split at h
  · cases h
  split at h
  · cases h
  split at h
  · cases h
  split at h
  · cases h
  split at h
  · cases h
  split at h
  · cases h
  · rw [Except.ok.injEq, Prod.mk.injEq] at h
    exact ⟨h.2.symm, h.1.symm⟩

/-- The directory just created by `mkdirAll` exists afterwards. -/
theorem mkdirAll_isDir_self (fs : FS) (p : String) :
    (fs.mkdirAll p).isDir p = true := by
  simp [FS.mkdirAll, FS.isDir]

theorem mkdirAll_existsPath_self (fs : FS) (p : String) :
    (fs.mkdirAll p).existsPath p = true := by
  simp [FS.existsPath, mkdirAll_isDir_self]

/-! ## Claim theorems -/

/-- **C1** (code bug).  The containment checks in
`resolve_and_validate_path` compare canonicalized paths with raw
`str.startswith`, not per path segment.  With sandbox root `/sbx` and the
crafted `workspace_id = "../sbx2"`, the canonicalized workspace root is
`/sbx2`, which is *not* a descendant of `/sbx` yet passes the string
check because `"/sbx2"` starts with `"/sbx"`.  The call is accepted and
returns `/sbx2/f.txt`, outside the sandbox, instead of rejecting with
`SandboxViolation` — exactly the latent bug §9 of the spec flags. -/
theorem C1_workspace_escapes_sandbox :
    resolve_and_validate_path cfgSbx "../sbx2" "f.txt" false false fsBase
      = .ok ("/sbx2/f.txt", fsBase)
    ∧ resolveAbs (pyJoin (resolveAbs cfgSbx.DIRECTORY_SANDBOX) "../sbx2") = "/sbx2"
    ∧ isDescendantPath "/sbx2" "/sbx" = false
    ∧ isDescendantPath "/sbx2/f.txt" "/sbx" = false :=
  ⟨rfl, rfl, by decide, by decide⟩

/-- **C2** (counterexample).  `"a/../b"` contains an embedded
parent-directory segment, yet `resolve_and_validate_path` does not reject
it: `os.path.normpath` collapses it to `"b"` before the `..` test, and the
call succeeds with a path inside the workspace. -/
theorem C2_embedded_dotdot_accepted :
    containsSub "a/../b" ".." = true
    ∧ resolve_and_validate_path cfgSbx "ws1" "a/../b" false false fsBase
        = .ok ("/sbx/ws1/b", fsBase) :=
  ⟨by decide, rfl⟩

/-- **C2** (amended).  Every relative path whose syntactic normalization
still begins with a parent-directory segment — which is where `normpath`
puts every `..` it cannot collapse — is rejected with `SandboxViolation`,
for every workspace and every filesystem, before any disk access (the
rejection precedes the `ensure_parent_exists` mutation and the existence
check, and does not consult `fs`). -/
theorem C2_normalized_escape_rejected (config : Settings)
    (workspace_id relative_path : String)
    (ensure_parent_exists check_existence : Bool) (fs : FS)
    (hws : workspace_id ≠ "") (hsb : config.DIRECTORY_SANDBOX ≠ "")
    (h : pyStartswith (normpath relative_path) ".." = true) :
    resolve_and_validate_path config workspace_id relative_path
        ensure_parent_exists check_existence fs
      = .error (.sandboxViolation
          ("Invalid relative path contains .. : " ++ relative_path)) := by
  have hrel : relative_path ≠ "" := by
    intro he
    rw [he] at h
    exact absurd h (by decide)
  unfold resolve_and_validate_path
  rw [if_neg hws, if_neg hrel, if_neg hsb]
  simp [h]

/-- Witness for `C2_normalized_escape_rejected` at the spec's own example
`"../../etc/passwd"`. -/
theorem C2_normalized_escape_rejected_witness :
    resolve_and_validate_path cfgSbx "ws1" "../../etc/passwd" false false fsBase
      = .error (.sandboxViolation
          ("Invalid relative path contains .. : " ++ "../../etc/passwd")) :=
  C2_normalized_escape_rejected cfgSbx "ws1" "../../etc/passwd" false false fsBase
    (by decide) (by decide) (by decide)

/-- **C3** (counterexample).  `write_file` resolves with
`ensure_parent_exists=True`, and the parent of `wsX/f.txt` is the
workspace directory itself: invoked with a `workspace_id` whose directory
does not exist, `write_file` silently creates `/sbx/wsX` and succeeds,
so a file operation does create a workspace directory implicitly. -/
theorem C3_write_file_creates_missing_workspace :
    fsBase.isDir "/sbx/wsX" = false
    ∧ exceptIsOk (write_file cfgSbx "wsX" "f.txt" "x" fsBase) = true
    ∧ (fsAfterWrite (write_file cfgSbx "wsX" "f.txt" "x" fsBase) fsBase).isDir
        "/sbx/wsX" = true := by
  refine ⟨by decide, rfl, by decide⟩

/-- **C3** (amended).  The operations that resolve with
`check_existence=True` — `read_file`, `list_directory` and every git tool
— do fail on a missing workspace directory without creating it (they
perform no filesystem mutation at all: their results carry no filesystem),
but `write_file` (and `create_directory`) create the missing workspace
directory as a parent, so the claim as stated fails for those two. -/
theorem C3_noncreating_ops_fail_without_creating (fs : FS)
    (runner : List String → String → ProcResult)
    (hf : fs.existsPath "/sbx/wsX/f.txt" = false)
    (hd : fs.existsPath "/sbx/wsX" = false) :
    read_file cfgSbx "wsX" "f.txt" fs
      = .error (.fileNotFound "Required path does not exist: /sbx/wsX/f.txt")
    ∧ list_directory cfgSbx "wsX" "." fs
      = .error (.fileNotFound "Required path does not exist: /sbx/wsX")
    ∧ (run_git_command cfgSbx "wsX" "." ["status"] fs runner).success = false
    ∧ (run_git_command cfgSbx "wsX" "." ["status"] fs runner).command = none := by
  have h1 : resolve_and_validate_path cfgSbx "wsX" "f.txt" false true fs
      = .error (.fileNotFound "Required path does not exist: /sbx/wsX/f.txt") := by
    unfold resolve_and_validate_path
    simp +decide [hf]
    rw [show resolveAbs (pyJoin (resolveAbs (pyJoin
          (resolveAbs cfgSbx.DIRECTORY_SANDBOX) "wsX")) (normpath "f.txt"))
        = "/sbx/wsX/f.txt" from rfl]
    rw [if_pos hf]
    rfl
  have h2 : resolve_and_validate_path cfgSbx "wsX" "." false true fs
      = .error (.fileNotFound "Required path does not exist: /sbx/wsX") := by
    unfold resolve_and_validate_path
    simp +decide [hd]
    rw [show resolveAbs (pyJoin (resolveAbs (pyJoin
          (resolveAbs cfgSbx.DIRECTORY_SANDBOX) "wsX")) (normpath "."))
        = "/sbx/wsX" from rfl]
    rw [if_pos hd]
    rfl
  refine ⟨?_, ?_, ?_, ?_⟩
  · unfold read_file
    rw [h1]
  · unfold list_directory
    rw [h2]
  · unfold run_git_command
    rw [h2]
  · unfold run_git_command
    rw [h2]

/-- Witness for `C3_noncreating_ops_fail_without_creating` on the base
filesystem with a trivial subprocess oracle. -/
theorem C3_noncreating_ops_fail_without_creating_witness :
    read_file cfgSbx "wsX" "f.txt" fsBase
      = .error (.fileNotFound "Required path does not exist: /sbx/wsX/f.txt")
    ∧ list_directory cfgSbx "wsX" "." fsBase
      = .error (.fileNotFound "Required path does not exist: /sbx/wsX")
    ∧ (run_git_command cfgSbx "wsX" "." ["status"] fsBase
        (fun _ _ => ⟨"", "", 0⟩)).success = false
    ∧ (run_git_command cfgSbx "wsX" "." ["status"] fsBase
        (fun _ _ => ⟨"", "", 0⟩)).command = none :=
  C3_noncreating_ops_fail_without_creating fsBase (fun _ _ => ⟨"", "", 0⟩)
    (by decide) (by decide)

/-- **C4** (counterexample).  When path validation fails — here
`git_diff_staged` on a workspace whose directory does not exist — the
exception handler of `_run_git_command` returns a dictionary with only
`success`, `stderr` and `returncode`: the `command` and `stdout` keys are
absent, so a VCS operation can produce a partially filled result. -/
theorem C4_validation_failure_result_partial :
    (git_diff_staged cfgSbx "wsX" "." fsBase (fun _ _ => ⟨"", "", 0⟩)).command = none
    ∧ (git_diff_staged cfgSbx "wsX" "." fsBase (fun _ _ => ⟨"", "", 0⟩)).stdout = none
    ∧ (git_diff_staged cfgSbx "wsX" "." fsBase (fun _ _ => ⟨"", "", 0⟩)).success = false
    ∧ (git_diff_staged cfgSbx "wsX" "." fsBase
        (fun _ _ => ⟨"", "", 0⟩)).returncode = some (-1) := by
  refine ⟨rfl, rfl, rfl, rfl⟩

/-- **C4** (amended).  Whenever the git process actually runs — the
working directory validates and is a directory — the result is the fully
populated five-field dictionary, with `success` true exactly when the
exit code is `0`; when validation fails the result is exactly the partial
`success=False` dictionary with only `stderr` and `returncode=-1`. -/
theorem C4_executed_result_complete (config : Settings)
    (workspace_id relative_dir : String) (command_args : List String)
    (fs : FS) (runner : List String → String → ProcResult) :
    (∀ p fs1,
      resolve_and_validate_path config workspace_id relative_dir false true fs
          = .ok (p, fs1) →
      fs.isDir p = true →
      run_git_command config workspace_id relative_dir command_args fs runner
        = { command := some (String.intercalate " " ("git" :: command_args)),
            stdout := some (pyStrip (runner ("git" :: command_args) p).stdout),
            stderr := some (pyStrip (runner ("git" :: command_args) p).stderr),
            returncode := some (runner ("git" :: command_args) p).returncode,
            success := (runner ("git" :: command_args) p).returncode = 0 })
    ∧ (∀ e,
      resolve_and_validate_path config workspace_id relative_dir false true fs
          = .error e →
      run_git_command config workspace_id relative_dir command_args fs runner
        = { command := none, stdout := none, stderr := some (pyErrMsg e),
            returncode := some (-1), success := false }) := by
  constructor
  · intro p fs1 hres hdir
    unfold run_git_command
    rw [hres]
    simp [hdir]
  · intro e hres
    unfold run_git_command
    rw [hres]

/-- Witness for `C4_executed_result_complete`: a concrete run in an
existing workspace with a subprocess oracle exiting `0`. -/
theorem C4_executed_result_complete_witness :
    run_git_command cfgSbx "ws1" "." ["status"] fsWs1
        (fun _ _ => ⟨" out ", "", 0⟩)
      = { command := some "git status", stdout := some "out",
          stderr := some "", returncode := some 0, success := true } := by
  have h := (C4_executed_result_complete cfgSbx "ws1" "." ["status"] fsWs1
    (fun _ _ => ⟨" out ", "", 0⟩)).1 "/sbx/ws1" fsWs1 rfl rfl
  rw [h]
  refine rfl

/-- **C5** (confirmed).  `_run_git_command` is a total function in the
embedding — every Python exception is caught and returned as a dictionary,
and `subprocess.run` is called with `check=False` — so a nonzero exit code
of the external process is never a raised error: whenever the process runs
and exits nonzero, the returned dictionary has `success=False` and carries
the process stderr; if the stderr (as git prints for a directory that is
not a repository) strips to a non-empty string the reported `stderr` is
non-empty. -/
theorem C5_nonzero_exit_reported (config : Settings)
    (workspace_id relative_dir : String) (command_args : List String)
    (fs : FS) (runner : List String → String → ProcResult)
    (p : String) (fs1 : FS) (out err : String) (rc : Int)
    (hres : resolve_and_validate_path config workspace_id relative_dir false true fs
        = .ok (p, fs1))
    (hdir : fs.isDir p = true)
    (hrun : runner ("git" :: command_args) p = ⟨out, err, rc⟩)
    (hrc : rc ≠ 0) (herr : pyStrip err ≠ "") :
    (run_git_command config workspace_id relative_dir command_args fs runner).success
        = false
    ∧ (run_git_command config workspace_id relative_dir command_args fs runner).stderr
        = some (pyStrip err)
    ∧ (run_git_command config workspace_id relative_dir command_args fs runner).stderr
        ≠ some "" := by
  unfold run_git_command
  rw [hres]
  simp [hdir, hrun, hrc, herr]

/-- Witness for `C5_nonzero_exit_reported`: the oracle behaves as `git`
does in a directory that was never initialized as a repository. -/
theorem C5_nonzero_exit_reported_witness :
    (run_git_command cfgSbx "ws1" "." ["status"] fsWs1
      (fun _ _ => ⟨"",
        "fatal: not a git repository (or any of the parent directories): .git",
        128⟩)).success = false
    ∧ (run_git_command cfgSbx "ws1" "." ["status"] fsWs1
      (fun _ _ => ⟨"",
        "fatal: not a git repository (or any of the parent directories): .git",
        128⟩)).stderr = some (pyStrip
          "fatal: not a git repository (or any of the parent directories): .git")
    ∧ (run_git_command cfgSbx "ws1" "." ["status"] fsWs1
      (fun _ _ => ⟨"",
        "fatal: not a git repository (or any of the parent directories): .git",
        128⟩)).stderr ≠ some "" :=
  C5_nonzero_exit_reported cfgSbx "ws1" "." ["status"] fsWs1
    (fun _ _ => ⟨"",
      "fatal: not a git repository (or any of the parent directories): .git",
      128⟩)
    "/sbx/ws1" fsWs1 ""
    "fatal: not a git repository (or any of the parent directories): .git" 128
    rfl rfl rfl (by decide) (by decide)

/-- **C6** (counterexample).  `read_file` opens the file in text mode with
`newline=None`, so universal-newline decoding rewrites `\r\n` (and lone
`\r`) to `\n`: writing `"a\r\nb"` and reading it back yields `"a\nb"`,
not the written text. -/
theorem C6_carriage_return_not_roundtripped :
    writeThenRead cfgSbx "ws1" "a/b/c.txt" "a\r\nb" fsWs1 = .ok "a\nb"
    ∧ ("a\nb" : String) ≠ "a\r\nb" :=
  ⟨rfl, by decide⟩

/-- **C6** (amended).  For every content string fixed by universal-newline
decoding — every text without carriage returns, including the empty string
and `\n`-separated multi-line text — `write_file` followed by `read_file`
of the same path returns exactly the written content. -/
theorem C6_roundtrip_exact_without_carriage_return (content : String)
    (h : universalNewlines content.data = content.data) :
    writeThenRead cfgSbx "ws1" "a/b/c.txt" content fsWs1 = .ok content := by
  have h1 : writeThenRead cfgSbx "ws1" "a/b/c.txt" content fsWs1
      = .ok (String.mk (universalNewlines content.data)) := rfl
  rw [h1, h]

/-- Witness for `C6_roundtrip_exact_without_carriage_return` on multi-line
content. -/
theorem C6_roundtrip_exact_without_carriage_return_witness :
    writeThenRead cfgSbx "ws1" "a/b/c.txt" "hello\nworld\n" fsWs1
      = .ok "hello\nworld\n" :=
  C6_roundtrip_exact_without_carriage_return "hello\nworld\n" (by decide)

/-- **C7** (confirmed).  `git_commit` with `add_all=True` first runs
`git add .`; if that fails its result is returned verbatim and the commit
is not attempted (the returned value is exactly the `add` result, whatever
the oracle would answer for the commit), otherwise `git commit -m message`
runs through the same validated directory. -/
theorem C7_commit_add_all_short_circuit (config : Settings)
    (workspace_id message directory : String) (fs : FS)
    (runner : List String → String → ProcResult) :
    ((run_git_command config workspace_id directory ["add", "."] fs runner).success
        = false →
      git_commit config workspace_id message true directory fs runner
        = run_git_command config workspace_id directory ["add", "."] fs runner)
    ∧ ((run_git_command config workspace_id directory ["add", "."] fs runner).success
        = true →
      git_commit config workspace_id message true directory fs runner
        = run_git_command config workspace_id directory ["commit", "-m", message]
            fs runner) := by
  constructor
  · intro h
    unfold git_commit
    simp [h]
  · intro h
    unfold git_commit
    simp [h]

/-- Witness for `C7_commit_add_all_short_circuit`: an oracle whose
`git add .` fails; the commit result would differ, yet `git_commit`
returns the add failure verbatim. -/
theorem C7_commit_add_all_short_circuit_witness :
    git_commit cfgSbx "ws1" "msg" true "." fsWs1
        (fun args _ => if args = ["git", "add", "."]
          then ⟨"", "add failed", 1⟩ else ⟨"committed", "", 0⟩)
      = run_git_command cfgSbx "ws1" "." ["add", "."] fsWs1
        (fun args _ => if args = ["git", "add", "."]
          then ⟨"", "add failed", 1⟩ else ⟨"committed", "", 0⟩) :=
  (C7_commit_add_all_short_circuit cfgSbx "ws1" "msg" "." fsWs1
    (fun args _ => if args = ["git", "add", "."]
      then ⟨"", "add failed", 1⟩ else ⟨"committed", "", 0⟩)).1 rfl

/-- A successful `create_workspace` call returns the generated id, implies
the workspace directory did not exist beforehand (the
`exist_ok=False` semantics), and leaves a filesystem in which it does. -/
theorem create_workspace_success_facts (config : Settings) (name suffix : String)
    (osFault : Option String) (fs : FS)
    (h : (create_workspace config name suffix osFault fs).1.success = true) :
    (create_workspace config name suffix osFault fs).1.workspace_id
        = some (makeWorkspaceId name suffix)
    ∧ fs.existsPath (targetOf config (makeWorkspaceId name suffix) ".") = false
    ∧ (create_workspace config name suffix osFault fs).2
        = fs.mkdirAll (targetOf config (makeWorkspaceId name suffix) ".") := by
  unfold create_workspace at h ⊢
  by_cases hn : name = ""
  · rw [if_pos hn] at h
    simp at h
  rw [if_neg hn] at h ⊢
  cases hres : resolve_and_validate_path config (makeWorkspaceId name suffix) "."
      false false fs with
  | error e =>
    rw [hres] at h
    simp at h
  | ok pfs =>
    obtain ⟨p, fs1⟩ := pfs
    obtain ⟨hfs1, hp⟩ := resolve_noensure_ok _ _ _ _ _ _ _ hres
    rw [hres] at h
    by_cases hex : fs1.existsPath p = true
    · simp [hex] at h
    · cases osFault with
      | some m => simp [hex] at h
      | none =>
        rw [hfs1, hp] at hex
        have hexf : fs.existsPath (targetOf config (makeWorkspaceId name suffix) ".")
            = false := by simpa using hex
        rw [hfs1, hp]
        refine ⟨by simp [hexf], hexf, by simp [hexf]⟩

/-- **C8** (confirmed).  First part: whenever two consecutive
`create_workspace` calls both succeed, they return different workspace
ids — the second call would have hit the `FileExistsError` branch had it
generated the same id, because the first call created that directory.
Second part: a collision of the generated id with an existing directory
yields the distinct workspace-conflict dictionary (`success=False`, a
non-null error message naming the conflict) and leaves the filesystem
unchanged, rather than reusing the directory or raising. -/
theorem C8_distinct_ids_and_conflict_surfaced (config : Settings)
    (name1 name2 suffix1 suffix2 : String) (of1 of2 : Option String) (fs0 : FS) :
    ((create_workspace config name1 suffix1 of1 fs0).1.success = true →
     (create_workspace config name2 suffix2 of2
        (create_workspace config name1 suffix1 of1 fs0).2).1.success = true →
     (create_workspace config name1 suffix1 of1 fs0).1.workspace_id
       ≠ (create_workspace config name2 suffix2 of2
            (create_workspace config name1 suffix1 of1 fs0).2).1.workspace_id)
    ∧ (∀ name suffix osF fs, name ≠ "" →
       resolve_and_validate_path config (makeWorkspaceId name suffix) "."
           false false fs
         = .ok (targetOf config (makeWorkspaceId name suffix) ".", fs) →
       fs.existsPath (targetOf config (makeWorkspaceId name suffix) ".") = true →
       create_workspace config name suffix osF fs
         = ({ success := false,
              workspace_id := some (makeWorkspaceId name suffix),
              absolute_path := none,
              error := some ("Workspace creation conflict. Directory "
                ++ makeWorkspaceId name suffix ++ " already exists.") }, fs)) := by
  constructor
  · intro h1 h2
    obtain ⟨hid1, _, hfs1⟩ := create_workspace_success_facts _ _ _ _ _ h1
    obtain ⟨hid2, hex2, _⟩ := create_workspace_success_facts _ _ _ _ _ h2
    rw [hid1, hid2]
    intro heq
    injection heq with heqid
    rw [hfs1, ← heqid] at hex2
    simp [FS.existsPath, mkdirAll_isDir_self] at hex2
  · intro name suffix osF fs hn hres hex
    unfold create_workspace
    rw [if_neg hn, hres]
    simp only [hex, if_true]

/-- Witness for `C8_distinct_ids_and_conflict_surfaced`: two successful
creations for the same project name with different random suffixes, and a
conflicting creation against a filesystem already holding the directory. -/
theorem C8_distinct_ids_and_conflict_surfaced_witness :
    ((create_workspace cfgSbx "same-name" "ab12cd34" none fsBase).1.workspace_id
      ≠ (create_workspace cfgSbx "same-name" "ef567890" none
          (create_workspace cfgSbx "same-name" "ab12cd34" none fsBase).2).1.workspace_id)
    ∧ create_workspace cfgSbx "same-name" "ab12cd34" none
        ⟨["/", "/sbx", "/sbx/ws_same-name_ab12cd34"], []⟩
      = ({ success := false,
           workspace_id := some (makeWorkspaceId "same-name" "ab12cd34"),
           absolute_path := none,
           error := some ("Workspace creation conflict. Directory "
             ++ makeWorkspaceId "same-name" "ab12cd34" ++ " already exists.") },
         ⟨["/", "/sbx", "/sbx/ws_same-name_ab12cd34"], []⟩) :=
  ⟨(C8_distinct_ids_and_conflict_surfaced cfgSbx "same-name" "same-name"
      "ab12cd34" "ef567890" none none fsBase).1 (by decide) (by decide),
   (C8_distinct_ids_and_conflict_surfaced cfgSbx "same-name" "same-name"
      "ab12cd34" "ef567890" none none fsBase).2 "same-name" "ab12cd34" none
      ⟨["/", "/sbx", "/sbx/ws_same-name_ab12cd34"], []⟩
      (by decide) rfl (by decide)⟩

/-- When every check of the resolver passes, the call returns the
canonical target; with `ensure_parent_exists=False` and
`check_existence=False` nothing else is consulted. -/
theorem resolve_ok_of_checks (config : Settings) (wsid rel : String) (fs : FS)
    (hws : wsid ≠ "") (hrel : rel ≠ "") (hsb : config.DIRECTORY_SANDBOX ≠ "")
    (hdots : (pyStartswith (normpath rel) ".." || containsSub (normpath rel) "/../"
        || containsSub (normpath rel) "\\..\\") = false)
    (hwsb : pyStartswith (resolveAbs (pyJoin (resolveAbs config.DIRECTORY_SANDBOX) wsid))
        (resolveAbs config.DIRECTORY_SANDBOX) = true)
    (htgt : pyStartswith (targetOf config wsid rel)
        (resolveAbs (pyJoin (resolveAbs config.DIRECTORY_SANDBOX) wsid)) = true) :
    resolve_and_validate_path config wsid rel false false fs
      = .ok (targetOf config wsid rel, fs) := by
  unfold targetOf at htgt ⊢
  unfold resolve_and_validate_path
  rw [if_neg hws, if_neg hrel, if_neg hsb]
  simp [hdots, hwsb, htgt]

/-- **C9** (confirmed).  The resolver never requires the workspace to be a
direct child of the sandbox root: any non-empty `workspace_id` whose
canonical location is the sandbox root itself (such as `"."`) or a nested
subdirectory (such as `"a/b"`) is accepted, and file paths are then
resolved directly under that location — with `workspace_id = "."` the
operations act on the sandbox root itself. -/
theorem C9_nested_or_root_workspace_accepted (wsid1 wsid2 : String) (fs : FS)
    (h1 : wsid1 ≠ "") (h2 : wsid2 ≠ "")
    (hc1 : resolveAbs (pyJoin "/sbx" wsid1) = "/sbx")
    (hc2 : resolveAbs (pyJoin "/sbx" wsid2) = "/sbx/a/b") :
    resolve_and_validate_path cfgSbx wsid1 "f.txt" false false fs
      = .ok ("/sbx/f.txt", fs)
    ∧ resolve_and_validate_path cfgSbx wsid2 "f.txt" false false fs
      = .ok ("/sbx/a/b/f.txt", fs) := by
  have hs : resolveAbs cfgSbx.DIRECTORY_SANDBOX = "/sbx" := rfl
  constructor
  · have h := resolve_ok_of_checks cfgSbx wsid1 "f.txt" fs h1 (by decide) (by decide)
      (by decide) (by rw [hs, hc1]; decide)
      (by unfold targetOf; rw [hs, hc1]; decide)
    rw [h]
    rw [show targetOf cfgSbx wsid1 "f.txt" = "/sbx/f.txt" from by
      unfold targetOf; rw [hs, hc1]; rfl]
  · have h := resolve_ok_of_checks cfgSbx wsid2 "f.txt" fs h2 (by decide) (by decide)
      (by decide) (by rw [hs, hc2]; decide)
      (by unfold targetOf; rw [hs, hc2]; decide)
    rw [h]
    rw [show targetOf cfgSbx wsid2 "f.txt" = "/sbx/a/b/f.txt" from by
      unfold targetOf; rw [hs, hc2]; rfl]

/-- Witness for `C9_nested_or_root_workspace_accepted` at
`workspace_id = "."` and `workspace_id = "a/b"`. -/
theorem C9_nested_or_root_workspace_accepted_witness :
    resolve_and_validate_path cfgSbx "." "f.txt" false false fsBase
      = .ok ("/sbx/f.txt", fsBase)
    ∧ resolve_and_validate_path cfgSbx "a/b" "f.txt" false false fsBase
      = .ok ("/sbx/a/b/f.txt", fsBase) :=
  C9_nested_or_root_workspace_accepted "." "a/b" fsBase
    (by decide) (by decide) rfl rfl

/-- **C10** (confirmed).  `create_workspace` is a total function returning
the four-key dictionary `{success, workspace_id, absolute_path, error}`:
whatever the project name, random suffix, filesystem state and modelled
`OSError` fault, a `success=True` result carries a workspace id and an
absolute path and a `None` error, and every `success=False` result carries
a non-null error message. -/
theorem C10_create_workspace_result_shape (config : Settings)
    (project_name suffix : String) (osFault : Option String) (fs : FS) :
    ((create_workspace config project_name suffix osFault fs).1.success = true →
      (create_workspace config project_name suffix osFault fs).1.workspace_id.isSome
          = true
      ∧ (create_workspace config project_name suffix osFault fs).1.absolute_path.isSome
          = true
      ∧ (create_workspace config project_name suffix osFault fs).1.error = none)
    ∧ ((create_workspace config project_name suffix osFault fs).1.success = false →
      (create_workspace config project_name suffix osFault fs).1.error.isSome
          = true) := by
  unfold create_workspace
  by_cases hn : project_name = ""
  · rw [if_pos hn]
    exact ⟨fun h => absurd h (by simp), fun _ => rfl⟩
  rw [if_neg hn]
  cases hres : resolve_and_validate_path config (makeWorkspaceId project_name suffix)
      "." false false fs with
  | error e => exact ⟨fun h => absurd h (by simp), fun _ => rfl⟩
  | ok pfs =>
    obtain ⟨p, fs1⟩ := pfs
    by_cases hex : fs1.existsPath p = true
    · simp [hex]
    · cases osFault with
      | some m => simp [hex]
      | none => simp [hex]

/-- Witness for `C10_create_workspace_result_shape`: a successful concrete
creation and a failing one (empty project name). -/
theorem C10_create_workspace_result_shape_witness :
    ((create_workspace cfgSbx "demo" "ab12cd34" none fsBase).1.workspace_id.isSome
        = true
      ∧ (create_workspace cfgSbx "demo" "ab12cd34" none fsBase).1.absolute_path.isSome
        = true
      ∧ (create_workspace cfgSbx "demo" "ab12cd34" none fsBase).1.error = none)
    ∧ (create_workspace cfgSbx "" "ab12cd34" none fsBase).1.error.isSome = true :=
  ⟨(C10_create_workspace_result_shape cfgSbx "demo" "ab12cd34" none fsBase).1
      (by decide),
   (C10_create_workspace_result_shape cfgSbx "" "ab12cd34" none fsBase).2
      (by decide)⟩
